import Mathlib

/-!
Verification development for the IT-OMC/Dashboard repository.

The repository is a React dashboard in two variants ("Inquiry" and
"Shipment").  The core logic verified here:

* `parseNumber` — numeric cell coercion (src/unnamed/part_001 lines 37-42);
* `fetchSheetData`'s row mapper and row filter for the Inquiry variant
  (src/unnamed/part_001 lines 44-110) and its legacy variant
  (src/unnamed/part_003 lines 44-106);
* the consumer state transitions `loadData` and the timer lifecycle
  (src/src/App.tsx lines 38-57);
* the reporting-window filter `filteredInquiries` (src/src/App.tsx
  lines 61-94);
* the aggregations `stats` (src/src/App.tsx lines 96-105 and
  src/unnamed/part_000 lines 58-68) and the `CategoryCard` percentage
  (src/src/App.tsx lines 378-380);
* the login gate `handleSubmit` (src/src/components/Login.tsx lines 15-31).

JavaScript numbers are modelled as rationals (`ℚ`): every value the
pipeline produces is an exactly representable decimal, and the model makes
"finite, never NaN" a theorem rather than an IEEE-754 side condition.
JavaScript strings are Lean `String`s; `undefined`/`null` cell values are
`Option.none`.
-/

/-! ## JavaScript primitives -/

/-- JS `a || b` on strings, where the only falsy string is `""`. -/
def jsOr (a b : String) : String :=
  if a = "" then b else a

/-- JS `a || b` where `a`, `b` are `string | undefined` (absent = falsy). -/
def jsOrOpt (a b : Option String) : Option String :=
  match a with
  | none => b
  | some s => if s = "" then b else some s

/-- JS `n || 0` on a number: `0` is falsy, every other number truthy
(the mapper never produces NaN, see `parseNumber`). -/
def jsOrZero (n : ℚ) : ℚ :=
  if n = 0 then 0 else n

/-- Whitespace characters trimmed by JS `String.prototype.trim` (the ones
occurring in this data: space, tab, newline, carriage return). -/
def isWs (c : Char) : Bool :=
  c = ' ' || c = '\t' || c = '\n' || c = '\r'

/-- Drop leading whitespace of a character list. -/
def trimLeftL (l : List Char) : List Char :=
  l.dropWhile isWs

/-- Drop trailing whitespace of a character list. -/
def trimRightL (l : List Char) : List Char :=
  (l.reverse.dropWhile isWs).reverse

/-- JS `s.trim()`. -/
def jsTrim (s : String) : String :=
  String.mk (trimRightL (trimLeftL s.toList))

/-- JS `s.toUpperCase()` (ASCII, which covers the month names compared). -/
def jsToUpper (s : String) : String :=
  String.mk (s.toList.map Char.toUpper)

/-- Substring test on character lists, mirroring JS `String.includes`. -/
def charsInfix (needle : List Char) : List Char → Bool
  | [] => needle.isEmpty
  | c :: t => needle.isPrefixOf (c :: t) || charsInfix needle t

/-- JS `hay.includes(needle)`. -/
def strIncludes (hay needle : String) : Bool :=
  charsInfix needle.toList hay.toList

/-- JS `Math.round`: half-way cases round toward positive infinity. -/
def jsRound (q : ℚ) : ℤ :=
  ⌊q + 1/2⌋

/-! ## JS `Number(string)` on cleaned numeric text

After `parseNumber` strips everything but digits, `.` and `-`, the string
handed to `Number` consists solely of those characters.  On such strings JS
`Number` returns: 0 for the empty string; the signed decimal value when the
string is an optional leading `-` followed by digits with at most one `.`
(and at least one digit); NaN otherwise (stray `-`, two dots, lone dot …).
-/

/-- Value of an all-digit character list. -/
def digitsVal (cs : List Char) : Nat :=
  cs.foldl (fun a c => a * 10 + (c.toNat - 48)) 0

/-- Recognise a non-empty all-digit character list. -/
def allDigits (cs : List Char) : Bool :=
  cs.all Char.isDigit

/-- The rational denoted by integer digits `ip` and fraction digits `fp`,
i.e. `ip.fp` read as the fraction `(ip·10^|fp| + fp) / 10^|fp|`, negated
when `neg`.  Built with `mkRat` so concrete values evaluate by `decide`. -/
def decimalToRat (neg : Bool) (ip fp : List Char) : ℚ :=
  let v : ℚ := mkRat (digitsVal ip * 10 ^ fp.length + digitsVal fp) (10 ^ fp.length)
  if neg then -v else v

/-- JS `Number` on a string made of digits, `.` and `-` only:
`none` models NaN. -/
def jsNum (s : String) : Option ℚ :=
  let cs := s.toList
  if cs.isEmpty then some 0
  else
    let (neg, body) :=
      match cs with
      | '-' :: rest => (true, rest)
      | _ => (false, cs)
    if body.contains '-' then none
    else
      match body.splitOn '.' with
      | [ip] =>
          if allDigits ip && !ip.isEmpty then some (decimalToRat neg ip [])
          else none
      | [ip, fp] =>
          if allDigits ip && allDigits fp && !(ip.isEmpty && fp.isEmpty) then
            some (decimalToRat neg ip fp)
          else none
      | _ => none

/-- Characters kept by `parseNumber`'s `replace(/[^0-9.\-]+/g, '')`. -/
def isNumChar (c : Char) : Bool :=
  c.isDigit || c = '.' || c = '-'

/-- The stripped text: every character that is not a digit, `.` or `-`
removed. -/
def stripNonNum (s : String) : String :=
  String.mk (s.toList.filter isNumChar)

/-- `parseNumber` (src/unnamed/part_001 lines 37-42, identical in
part_003): falsy input (`undefined`, `null`, `""`) yields 0; otherwise the
input is stripped to digits/`.`/`-`, handed to `Number`, and NaN degrades
to 0. -/
def parseNumber (val : Option String) : ℚ :=
  match val with
  | none => 0
  | some s =>
      if s = "" then 0
      else
        let cleaned := stripNonNum s
        match jsNum cleaned with
        | none => 0
        | some q => q

/-! ## Rows and the Inquiry record (src/unnamed/part_001)

Papaparse with `header: true` turns each CSV line into an object keyed by
the header row; `results.meta.fields` is the ordered header list.  A parsed
row is modelled as an association list from header text to cell text;
`none` on lookup models a JS `undefined` property.
-/

/-- One parsed CSV row: observed header → cell text. -/
abbrev Row := List (String × String)

/-- JS property access `row[key]` (`none` = `undefined`). -/
def rowGet (r : Row) (k : String) : Option String :=
  (List.find? (fun p => p.1 = k) r).map (fun p => p.2)

/-- JS `row[key] || ''`: absent and empty both coerce to `""`. -/
def getS (r : Row) (k : String) : String :=
  jsOr ((rowGet r k).getD "") ""

/-- Canonical Inquiry record (src/unnamed/part_001 lines 3-32). -/
structure Inquiry where
  rowNum : ℚ
  year : ℚ
  month : String
  date : ℚ
  folderNumber : String
  week : String
  vesselName : String
  eta : String
  port : String
  principal : String
  country : String
  service : String
  category : String
  qtnValue : ℚ
  qtnCost : ℚ
  qtnProfit : ℚ
  qtnMargin : ℚ
  marginPercent : ℚ
  discountPercent : String
  qtnStatus : String
  update : String
  contactPerson : String
  contactNumber : String
  contactEmail : String
  pic : String
  clientStatus : String
  remarks : String
  rfqNumber : String
  deriving Repr, DecidableEq

/-- Header key `"CONTACT PERSON'S EMAIL"`. -/
def contactEmailKey : String := "CONTACT PERSON\x27S EMAIL"

/-- The row mapper of src/unnamed/part_001 lines 61-92, applied with the
dynamically resolved first header (`results.meta.fields[0]`). -/
def mapRowInquiry (firstHeader : String) (r : Row) : Inquiry where
  rowNum := jsOrZero (parseNumber (rowGet r firstHeader))
  year := parseNumber (rowGet r "YEAR")
  month := getS r "MONTH"
  date := parseNumber (rowGet r "DATE")
  folderNumber := getS r firstHeader
  week := jsOr (getS r "WEEK ") (getS r "WEEK")
  vesselName := jsTrim (getS r "VESSEL NAME")
  eta := getS r "ETA"
  port := getS r "PORT"
  principal := getS r "PRINCIPAL"
  country := getS r "COUNTRY"
  service := getS r "SERVICE"
  category := getS r "CATEGORY"
  qtnValue := parseNumber (rowGet r "PDA / QTN VALUE")
  qtnCost := parseNumber (jsOrOpt (rowGet r "PDA / QTN  COST") (rowGet r "PDA / QTN COST"))
  qtnProfit := parseNumber (rowGet r "PDA / QTN PROFIT")
  qtnMargin := parseNumber (rowGet r "PDA / QTN MARGIN")
  marginPercent := parseNumber (rowGet r "MARGIN %")
  discountPercent := getS r "DISCOUNT %"
  qtnStatus := jsTrim (getS r "QTN STATUS")
  update := jsTrim (getS r "UPDATE")
  contactPerson := jsTrim (jsOr (getS r "CONTACT PERSON ") (getS r "CONTACT PERSON"))
  contactNumber := getS r "CONTACT NUMBER"
  contactEmail := getS r contactEmailKey
  pic := getS r "PIC"
  clientStatus := getS r "CLIENT STATUS"
  remarks := getS r "REMARKS"
  rfqNumber := getS r "RFQ NUMBERS / ITEM DESCRIPTION"

/-- The row-level filter of src/unnamed/part_001 lines 95-97:
`item.vesselName || item.qtnValue > 0 || item.rowNum > 0`. -/
def hasSignal (i : Inquiry) : Bool :=
  !(i.vesselName == "") || decide (0 < i.qtnValue) || decide (0 < i.rowNum)

/-- `fetchSheetData`'s parse stage (src/unnamed/part_001 lines 57-99):
given the header list observed by papaparse and the parsed rows, resolve
the first header (`results.meta.fields ? results.meta.fields[0]
: 'FOLDER NUMBER'`, the empty list standing for an absent field list), map
every row and keep the rows that carry a signal. -/
def fetchSheetRecords (fields : List String) (rows : List Row) : List Inquiry :=
  let firstHeader := fields.headD "FOLDER NUMBER"
  (rows.map (mapRowInquiry firstHeader)).filter hasSignal

/-- The legacy row mapper of src/unnamed/part_003 lines 57-88.  It differs
from `mapRowInquiry` only in the identifier fields: `rowNum` reads the
fixed header name `''` and `folderNumber` the fixed name `'FOLDER NUMBER'`
instead of the header at list position 0. -/
def mapRowInquiry003 (r : Row) : Inquiry :=
  { mapRowInquiry "" r with folderNumber := getS r "FOLDER NUMBER" }

/-- The legacy parse stage (src/unnamed/part_003 lines 57-95): same filter,
fixed-name identifier lookup, the header list never consulted. -/
def fetchSheetRecords003 (rows : List Row) : List Inquiry :=
  (rows.map mapRowInquiry003).filter hasSignal

/-! ## Window filter (src/src/App.tsx lines 61-94)

`filteredInquiries` takes `new Date()` at the moment of computation; the
model passes that reference instant explicitly as a calendar date.  The
JS `yesterday.setDate(today.getDate() - 1)` rolls over month and year
boundaries, reproduced by `prevDay`.
-/

/-- A calendar date as JS `Date` exposes it: full year, month 1-12,
day of month. -/
structure SimpleDate where
  year : Int
  month : Nat
  day : Nat
  deriving Repr, DecidableEq

/-- Gregorian leap-year rule, as implemented by JS `Date`. -/
def isLeapYear (y : Int) : Bool :=
  (y % 4 == 0 && !(y % 100 == 0)) || y % 400 == 0

/-- Days in a month, as JS `Date` rollover uses. -/
def daysInMonth (y : Int) (m : Nat) : Nat :=
  if m = 2 then (if isLeapYear y then 29 else 28)
  else if m = 4 || m = 6 || m = 9 || m = 11 then 30
  else 31

/-- The date one day earlier: JS `d.setDate(d.getDate() - 1)`. -/
def prevDay (d : SimpleDate) : SimpleDate :=
  if 1 < d.day then ⟨d.year, d.month, d.day - 1⟩
  else if 1 < d.month then ⟨d.year, d.month - 1, daysInMonth d.year (d.month - 1)⟩
  else ⟨d.year - 1, 12, 31⟩

/-- `toLocaleString('default', \x7b month: 'long' \x7d).toUpperCase()`:
the full English month name, upper-cased. -/
def monthNameUpper : Nat → String
  | 1 => "JANUARY"
  | 2 => "FEBRUARY"
  | 3 => "MARCH"
  | 4 => "APRIL"
  | 5 => "MAY"
  | 6 => "JUNE"
  | 7 => "JULY"
  | 8 => "AUGUST"
  | 9 => "SEPTEMBER"
  | 10 => "OCTOBER"
  | 11 => "NOVEMBER"
  | 12 => "DECEMBER"
  | _ => ""

/-- One arm of the filter predicate: `item.year === d-year &&
item.date === d-day && (item.month || '').toUpperCase().includes(name)`. -/
def matchesTuple (item : Inquiry) (d : SimpleDate) : Bool :=
  decide (item.year = (d.year : ℚ)) &&
  decide (item.date = (d.day : ℚ)) &&
  strIncludes (jsToUpper (jsOr item.month "")) (monthNameUpper d.month)

/-- `filteredInquiries` (src/src/App.tsx lines 61-94): keep the records
matching today's tuple or yesterday's tuple. -/
def filteredInquiries (inquiries : List Inquiry) (today : SimpleDate) : List Inquiry :=
  let yesterday := prevDay today
  inquiries.filter (fun item => matchesTuple item today || matchesTuple item yesterday)

/-! ## Aggregations -/

/-- The `stats` memo of the Inquiry dashboard (src/src/App.tsx
lines 96-105). -/
structure InquiryStats where
  totalQtnValue : ℚ
  totalCost : ℚ
  totalProfit : ℚ
  totalQtnMargin : ℚ
  totalInquiries : Nat
  confirmedOrders : Nat
  deriving Repr, DecidableEq

/-- src/src/App.tsx lines 96-105: reduce-sums with initial value 0
(`s.qtnCost || 0` and `s.qtnMargin || 0` modelled by `jsOrZero`), a record
count and a count of records whose `update` equals `'CONFIRMED'`. -/
def statsInquiry (l : List Inquiry) : InquiryStats where
  totalQtnValue := l.foldl (fun acc s => acc + s.qtnValue) 0
  totalCost := l.foldl (fun acc s => acc + jsOrZero s.qtnCost) 0
  totalProfit := l.foldl (fun acc s => acc + s.qtnProfit) 0
  totalQtnMargin := l.foldl (fun acc s => acc + jsOrZero s.qtnMargin) 0
  totalInquiries := l.length
  confirmedOrders := (l.filter (fun s => s.update == "CONFIRMED")).length

/-- Canonical Shipment record (src/src/api/dataService.ts lines 3-14). -/
structure Shipment where
  id : String
  date : String
  vesselName : String
  origin : String
  destination : String
  payloadTeu : ℚ
  revenue : ℚ
  cost : ℚ
  profit : ℚ
  fuelEfficiency : ℚ
  deriving Repr, DecidableEq

/-- The `stats` memo of the Shipment dashboard (src/unnamed/part_000
lines 58-68); `avgEfficiency`, a display string built with `toFixed(2)`,
is not aggregated by any claim and is omitted. -/
structure ShipmentStats where
  totalRevenue : ℚ
  totalCost : ℚ
  totalProfit : ℚ
  totalPayload : ℚ
  deriving Repr, DecidableEq

/-- src/unnamed/part_000 lines 58-68: note `totalProfit` is
`totalRevenue - totalCost`, not a fold over the per-record profit field. -/
def statsShipment (l : List Shipment) : ShipmentStats :=
  let totalRevenue := l.foldl (fun acc s => acc + s.revenue) 0
  let totalCost := l.foldl (fun acc s => acc + s.cost) 0
  { totalRevenue := totalRevenue
    totalCost := totalCost
    totalProfit := totalRevenue - totalCost
    totalPayload := l.foldl (fun acc s => acc + s.payloadTeu) 0 }

/-- `CategoryCard` (src/src/App.tsx lines 378-380):
`total > 0 ? Math.round((count / total) * 100) : 0`. -/
def categoryPercentage (count total : ℚ) : ℤ :=
  if 0 < total then jsRound (count / total * 100) else 0

/-! ## Ingestion outcome and the consumer transition (App.tsx lines 38-47)

`fetchSheetData` (src/unnamed/part_001 lines 44-110) wraps the whole cycle
in `try`: a network failure or a non-`ok` response throws, is caught by the
`catch` block, logged, and the function resolves with `[]`.  On a
successful response the CSV text is parsed and the mapped records are
resolved.  (Papaparse invoked on a string always calls `complete`; the
`error` callback — the only rejection path — never fires, so the modelled
function is total and never signals failure to its caller.)
-/

/-- Outcome of one fetch cycle as seen at the pipeline boundary: the
transport failed, the response carried a non-success status, or the
response body parsed into a header list and rows. -/
inductive FetchOutcome where
  | networkError
  | httpError (statusText : String)
  | ok (fields : List String) (rows : List Row)
  deriving Repr, DecidableEq

/-- Whether the cycle failed before parsing. -/
def FetchOutcome.failed : FetchOutcome → Bool
  | .networkError => true
  | .httpError _ => true
  | .ok _ _ => false

/-- The value `fetchSheetData` resolves with
(src/unnamed/part_001 lines 44-110): records on success, `[]` from the
catch block on failure. -/
def fetchSheetData : FetchOutcome → List Inquiry
  | .networkError => []
  | .httpError _ => []
  | .ok fields rows => fetchSheetRecords fields rows

/-- The observable consumer state `{ records, loading }`. -/
structure AppObsState where
  inquiries : List Inquiry
  loading : Bool
  deriving Repr, DecidableEq

/-- `loadData` (src/src/App.tsx lines 38-47): awaits `fetchSheetData`,
stores whatever list it resolves with via `setInquiries`, and clears
`loading` in the `finally` block.  The `catch` arm is unreachable because
`fetchSheetData` never rejects (its own `catch` resolves with `[]`). -/
def loadData (st : AppObsState) (o : FetchOutcome) : AppObsState :=
  { st with inquiries := fetchSheetData o, loading := false }

/-! ## Scheduler lifecycle (App.tsx lines 49-57)

The mount effect starts `loadData`, a 20-second refresh interval and a
1-second clock interval; the cleanup closure clears both intervals.  The
model is a step function over lifecycle events.  React discards a state
update (`setInquiries`, `setLoading`, `setCurrentTime`) delivered to an
unmounted component, so a fetch that resolves after teardown leaves the
observable state unchanged; that platform rule is the `mounted` guard in
the `fetchResolve` arm.
-/

/-- Component lifecycle state: whether mounted, which intervals are
installed, and the observable view state. -/
structure DashState where
  mounted : Bool
  refreshTimer : Bool
  clockTimer : Bool
  inquiries : List Inquiry
  loading : Bool
  clockTicks : Nat
  deriving Repr, DecidableEq

/-- Lifecycle events: mount, a refresh-interval tick (which only starts a
fetch), a clock tick, the resolution of some in-flight fetch, unmount. -/
inductive DashEvent where
  | mount
  | refreshTick
  | clockTick
  | fetchResolve (o : FetchOutcome)
  | unmount
  deriving Repr, DecidableEq

/-- One transition of the scheduler (src/src/App.tsx lines 38-57). -/
def dashStep (s : DashState) : DashEvent → DashState
  | .mount => { s with mounted := true, refreshTimer := true, clockTimer := true }
  | .refreshTick => s
  | .clockTick =>
      if s.clockTimer then { s with clockTicks := s.clockTicks + 1 } else s
  | .fetchResolve o =>
      if s.mounted then { s with inquiries := fetchSheetData o, loading := false }
      else s
  | .unmount => { s with mounted := false, refreshTimer := false, clockTimer := false }

/-- What a consumer of the component can observe: the record set, the
loading flag and the clock readout. -/
def dashObservable (s : DashState) : List Inquiry × Bool × Nat :=
  (s.inquiries, s.loading, s.clockTicks)

/-! ## Login gate (src/src/components/Login.tsx) -/

/-- Local state of the Login component. -/
structure LoginState where
  code : String
  error : Bool
  isLoading : Bool
  deriving Repr, DecidableEq

/-- `const ACCESS_CODE = import.meta.env.VITE_DASHBOARD_PASSCODE || '1234'`
(src/src/components/Login.tsx line 15): the environment override when it
is a non-empty string, otherwise the default. -/
def accessCode (env : Option String) : String :=
  jsOr (env.getD "") "1234"

/-- `handleSubmit` (src/src/components/Login.tsx lines 17-31), observed
after the 600 ms timeout callback ran: first `setIsLoading(true)` and
`setError(false)`, then either `onLogin()` on a code match, or
`setError(true); setIsLoading(false)`.  Returns the component state and
whether `onLogin` was invoked. -/
def handleSubmit (env : Option String) (st : LoginState) : LoginState × Bool :=
  let st1 := { st with isLoading := true, error := false }
  if st.code = accessCode env then (st1, true)
  else ({ st1 with error := true, isLoading := false }, false)

/-- The admission flag after a submit: `onLogin` = `handleLogin`
(src/src/App.tsx lines 33-36) sets `isAuthenticated` to `true`; otherwise
the flag is untouched. -/
def submitAdmission (env : Option String) (st : LoginState) (isAuthenticated : Bool) : Bool :=
  if (handleSubmit env st).2 then true else isAuthenticated

/-! ## Helper lemmas and shared concrete inputs -/

/-- `parseNumber` on a present string is `Number` of the stripped text,
with NaN defaulting to 0. -/
theorem parseNumber_some_eq (s : String) :
    parseNumber (some s) = (jsNum (stripNonNum s)).getD 0 := by
  by_cases h : s = ""
  · subst h; decide
  · simp only [parseNumber, if_neg h]
    cases hj : jsNum (stripNonNum s) <;> simp [hj]

/-- A fold of `+` over a list starting at 0 is the sum of the images. -/
theorem foldl_add_eq_sum {α : Type} (f : α → ℚ) (l : List α) :
    l.foldl (fun acc s => acc + f s) 0 = (l.map f).sum := by
  suffices h : ∀ init : ℚ, l.foldl (fun acc s => acc + f s) init = init + (l.map f).sum by
    simpa using h 0
  induction l with
  | nil => intro init; simp
  | cons a t ih => intro init; simp [ih, add_assoc]

/-- Dropping leading whitespace twice is dropping it once. -/
theorem trimLeftL_idem (l : List Char) : trimLeftL (trimLeftL l) = trimLeftL l :=
  List.dropWhile_idempotent isWs l

/-- `trimRightL` is Mathlib's `List.rdropWhile`. -/
theorem trimRightL_eq_rdropWhile (l : List Char) :
    trimRightL l = List.rdropWhile isWs l := rfl

/-- Dropping trailing whitespace twice is dropping it once. -/
theorem trimRightL_idem (l : List Char) : trimRightL (trimRightL l) = trimRightL l := by
  simp [trimRightL_eq_rdropWhile, List.rdropWhile_idempotent]

/-- A `dropWhile`-fixed list stays fixed on any of its prefixes. -/
theorem dropWhile_fixed_of_prefix {p : Char → Bool} {l l' : List Char}
    (hfix : l.dropWhile p = l) (hpre : l' <+: l) : l'.dropWhile p = l' := by
  cases l' with
  | nil => rfl
  | cons c t =>
      obtain ⟨rest, hrest⟩ := hpre
      subst hrest
      have hlen : 0 < (c :: t ++ rest).length := by simp
      have hc : ¬ p ((c :: t ++ rest).get ⟨0, hlen⟩) :=
        List.dropWhile_eq_self_iff.mp hfix hlen
      have hc' : ¬ p c := hc
      simp only [List.dropWhile_cons]
      simp [hc']

/-- The trailing-trim of a list is one of its prefixes. -/
theorem trimRightL_prefix (l : List Char) : trimRightL l <+: l := by
  rw [trimRightL_eq_rdropWhile]
  exact List.rdropWhile_prefix isWs l

/-- JS `trim` is idempotent: trimmed text trims to itself. -/
theorem jsTrim_idem (s : String) : jsTrim (jsTrim s) = jsTrim s := by
  unfold jsTrim
  have htoList : (String.mk (trimRightL (trimLeftL s.toList))).toList
      = trimRightL (trimLeftL s.toList) := rfl
  rw [htoList]
  set y := trimLeftL s.toList with hy
  have hyfix : trimLeftL y = y := trimLeftL_idem _
  have hpre : trimRightL y <+: y := trimRightL_prefix y
  have h1 : trimLeftL (trimRightL y) = trimRightL y :=
    dropWhile_fixed_of_prefix hyfix hpre
  rw [h1, trimRightL_idem]

/-- A fully defaulted Inquiry record builder used by concrete scenarios:
every field defaulted except an identifier, a vessel name, and the
year / month / day-of-month triple the window filter reads. -/
def mkInquiry (y : ℚ) (m : String) (d : ℚ) : Inquiry :=
  { rowNum := 1, year := y, month := m, date := d, folderNumber := "", week := "",
    vesselName := "V", eta := "", port := "", principal := "", country := "",
    service := "", category := "", qtnValue := 0, qtnCost := 0, qtnProfit := 0,
    qtnMargin := 0, marginPercent := 0, discountPercent := "", qtnStatus := "",
    update := "", contactPerson := "", contactNumber := "", contactEmail := "",
    pic := "", clientStatus := "", remarks := "", rfqNumber := "" }

/-- Five records, as in the spec scenario "fetch cycle 1 succeeds with
5 records". -/
def fiveRecords : List Inquiry :=
  [(15 : ℚ), 16, 17, 18, 19].map (fun d => mkInquiry 2026 "FEBRUARY" d)

/-! ## C1 — failure policy of a fetch cycle -/

/-- C1 counterexample: a state holding 5 records, hit by a failed cycle
(non-success HTTP status).  The claim says `records` still has length 5
afterwards; in fact `fetchSheetData`'s catch block resolves with `[]`,
`loadData` stores it, and the observable record set has length 0. -/
theorem c1_counterexample :
    ({ inquiries := fiveRecords, loading := false } : AppObsState).inquiries.length = 5 ∧
    (loadData { inquiries := fiveRecords, loading := false }
        (.httpError "Service Unavailable")).inquiries.length = 0 ∧
    (loadData { inquiries := fiveRecords, loading := false }
        (.httpError "Service Unavailable")).inquiries.length ≠ 5 := by
  refine ⟨by decide, rfl, by decide⟩

/-- C1 amended: a failed fetch cycle (network error or non-success status)
is caught inside `fetchSheetData`, which resolves successfully with the
empty list; the caller receives no failure signal, the previously held
records are replaced by the empty list, and `loading` returns to false. -/
theorem c1_failed_cycle_clears_records (st : AppObsState) (o : FetchOutcome)
    (h : o.failed = true) :
    loadData st o = { inquiries := [], loading := false } := by
  cases o with
  | networkError => rfl
  | httpError s => rfl
  | ok f r => simp [FetchOutcome.failed] at h

/-- Witness for `c1_failed_cycle_clears_records` at a concrete state and a
concrete non-success status. -/
theorem c1_failed_cycle_clears_records_witness :
    (FetchOutcome.httpError "Service Unavailable").failed = true ∧
    loadData { inquiries := fiveRecords, loading := false } (.httpError "Service Unavailable")
      = { inquiries := [], loading := false } :=
  ⟨rfl, c1_failed_cycle_clears_records _ _ rfl⟩

/-! ## C2 — identifier bound to the first column -/

/-- C2 counterexample: in the legacy mapper (src/unnamed/part_003), a parse
pass whose position-0 header is `"ID"` carrying `"7"` produces
`rowNum = 0` and `folderNumber = ""` — the identifier is resolved by the
fixed names `''` and `'FOLDER NUMBER'`, not by the first-column header. -/
theorem c2_counterexample :
    (mapRowInquiry003 [("ID", "7")]).rowNum = 0 ∧
    parseNumber (rowGet [("ID", "7")] "ID") = 7 ∧
    (mapRowInquiry003 [("ID", "7")]).folderNumber = "" ∧
    getS [("ID", "7")] "ID" = "7" := by
  refine ⟨rfl, by decide, rfl, rfl⟩

/-- C2 amended: in the current dataService (src/unnamed/part_001) the
identifier fields are bound to the header at list position 0, whatever its
text — the rest of the header list is never consulted; in the legacy
variant (src/unnamed/part_003) `rowNum` reads the fixed header `''` and
`folderNumber` the fixed header `'FOLDER NUMBER'`. -/
theorem c2_identifier_first_column :
    (∀ (h : String) (t t2 : List String) (rows : List Row),
        fetchSheetRecords (h :: t) rows = fetchSheetRecords (h :: t2) rows) ∧
    (∀ (h : String) (r : Row),
        (mapRowInquiry h r).folderNumber = getS r h ∧
        (mapRowInquiry h r).rowNum = jsOrZero (parseNumber (rowGet r h))) ∧
    (∀ r : Row,
        (mapRowInquiry003 r).folderNumber = getS r "FOLDER NUMBER" ∧
        (mapRowInquiry003 r).rowNum = jsOrZero (parseNumber (rowGet r ""))) :=
  ⟨fun _ _ _ _ => rfl, fun _ _ => ⟨rfl, rfl⟩, fun _ => ⟨rfl, rfl⟩⟩

/-! ## C3 — numeric coercion -/

/-- C3: `parseNumber` is total (into ℚ, hence always finite and never an
exception), returns 0 on absent and empty input and whenever `Number`
yields NaN on the stripped remainder (`isNaN(num) ? 0 : num`, e.g. the
remainder `"1.2.3"`), evaluates `"$1,234.50"` to 1234.50, and depends on
its input only through the stripped digits/`.`/`-` text. -/
theorem c3_coerceNumber_spec :
    parseNumber (some "$1,234.50") = 2469 / 2 ∧
    parseNumber (some "") = 0 ∧
    parseNumber none = 0 ∧
    parseNumber (some "1.2.3") = 0 ∧
    (∀ s : String, jsNum (stripNonNum s) = none → parseNumber (some s) = 0) ∧
    ∀ s t : String, stripNonNum s = stripNonNum t →
      parseNumber (some s) = parseNumber (some t) := by
  refine ⟨?_, by decide, by decide, by decide, ?_, ?_⟩
  · have h : parseNumber (some "$1,234.50") = mkRat 2469 2 := by decide
    rw [h, Rat.mkRat_eq_div]
    norm_num
  · intro s hs
    rw [parseNumber_some_eq, hs]
    rfl
  · intro s t h
    rw [parseNumber_some_eq, parseNumber_some_eq, h]

/-- Witness for `c3_coerceNumber_spec`: a concrete string whose stripped
remainder is NaN degrades to 0, and two concrete strings with the same
stripped text coerce equally. -/
theorem c3_coerceNumber_spec_witness :
    jsNum (stripNonNum "7-7") = none ∧
    parseNumber (some "7-7") = 0 ∧
    stripNonNum "$1" = stripNonNum "1x" ∧
    parseNumber (some "$1") = parseNumber (some "1x") :=
  ⟨by decide, c3_coerceNumber_spec.2.2.2.2.1 "7-7" (by decide), by decide,
    c3_coerceNumber_spec.2.2.2.2.2 "$1" "1x" (by decide)⟩

/-! ## C4 — reporting-window selection -/

/-- C4: a record passes `filteredInquiries` exactly when it is in the input
and its (year, day-of-month, month-substring) tuple matches today's or
yesterday's tuple from the reference instant; on the spec's example
(reference 2026-02-19, records for Feb 19 / 18 / 17 of 2026, month
`"FEBRUARY"`) exactly the first two records are returned. -/
theorem c4_selectWindow_spec :
    (∀ (l : List Inquiry) (d : SimpleDate) (r : Inquiry),
        r ∈ filteredInquiries l d ↔
          r ∈ l ∧ (matchesTuple r d = true ∨ matchesTuple r (prevDay d) = true)) ∧
    filteredInquiries
        [mkInquiry 2026 "FEBRUARY" 19, mkInquiry 2026 "FEBRUARY" 18,
          mkInquiry 2026 "FEBRUARY" 17] ⟨2026, 2, 19⟩
      = [mkInquiry 2026 "FEBRUARY" 19, mkInquiry 2026 "FEBRUARY" 18] := by
  constructor
  · intro l d r
    simp [filteredInquiries, List.mem_filter, Bool.or_eq_true]
  · decide

/-! ## C5 — record invariants -/

/-- A retained row whose `MONTH` cell carries surrounding whitespace. -/
def untrimmedMonthRow : Row :=
  [("FOLDER NUMBER", "12"), ("VESSEL NAME", "Vessel"), ("MONTH", " FEBRUARY ")]

/-- C5 counterexample: the mapper passes the `MONTH` cell through
untrimmed (`row['MONTH'] || ''`), so a record produced — and retained — by
the pipeline carries the string field `" FEBRUARY "`, which is not equal
to its own trim. -/
theorem c5_counterexample :
    (mapRowInquiry "FOLDER NUMBER" untrimmedMonthRow).month = " FEBRUARY " ∧
    jsTrim " FEBRUARY " = "FEBRUARY" ∧
    (mapRowInquiry "FOLDER NUMBER" untrimmedMonthRow).month ≠
      jsTrim (mapRowInquiry "FOLDER NUMBER" untrimmedMonthRow).month ∧
    fetchSheetRecords ["FOLDER NUMBER", "VESSEL NAME", "MONTH"] [untrimmedMonthRow]
      = [mapRowInquiry "FOLDER NUMBER" untrimmedMonthRow] := by
  refine ⟨rfl, by decide, by decide, by decide⟩

/-- C5 amended: every numeric field of a mapped record is a well-defined
rational (never NaN, never an exception) and equals 0 whenever its source
cell is absent (empty row) or strips to non-numeric text; every string
field is present, defaulting to `""` on an empty row; but only
`vesselName`, `qtnStatus`, `update` and `contactPerson` are trimmed — the
other string fields (month, week, eta, …) are passed through as-is. -/
theorem c5_record_invariants :
    (∀ (h : String) (r : Row),
        jsTrim (mapRowInquiry h r).vesselName = (mapRowInquiry h r).vesselName ∧
        jsTrim (mapRowInquiry h r).qtnStatus = (mapRowInquiry h r).qtnStatus ∧
        jsTrim (mapRowInquiry h r).update = (mapRowInquiry h r).update ∧
        jsTrim (mapRowInquiry h r).contactPerson = (mapRowInquiry h r).contactPerson) ∧
    (∀ h : String, mapRowInquiry h [] =
      { rowNum := 0, year := 0, month := "", date := 0, folderNumber := "", week := "",
        vesselName := "", eta := "", port := "", principal := "", country := "",
        service := "", category := "", qtnValue := 0, qtnCost := 0, qtnProfit := 0,
        qtnMargin := 0, marginPercent := 0, discountPercent := "", qtnStatus := "",
        update := "", contactPerson := "", contactNumber := "", contactEmail := "",
        pic := "", clientStatus := "", remarks := "", rfqNumber := "" }) ∧
    (∀ s : String, jsNum (stripNonNum s) = none → parseNumber (some s) = 0) := by
  refine ⟨?_, fun h => rfl, ?_⟩
  · intro h r
    exact ⟨jsTrim_idem _, jsTrim_idem _, jsTrim_idem _, jsTrim_idem _⟩
  · intro s hs
    rw [parseNumber_some_eq, hs]
    rfl

/-- Witness for `c5_record_invariants` at a non-numeric concrete cell. -/
theorem c5_record_invariants_witness :
    jsNum (stripNonNum "1.2.3") = none ∧ parseNumber (some "1.2.3") = 0 :=
  ⟨by decide, c5_record_invariants.2.2 "1.2.3" (by decide)⟩

/-! ## C6 — aggregation sums -/

/-- A shipment whose stored profit is not `revenue - cost`. -/
def oddShipment : Shipment :=
  { id := "SHP-X", date := "2026-02-10", vesselName := "Ghost", origin := "AAA",
    destination := "BBB", payloadTeu := 0, revenue := 10, cost := 3, profit := 999,
    fuelEfficiency := 0 }

/-- The first hardcoded record of src/src/api/dataService.ts (SHP-0041),
whose profit does equal revenue minus cost. -/
def shp0041 : Shipment :=
  { id := "SHP-0041", date := "2026-02-10", vesselName := "Blue Horizon",
    origin := "SGP", destination := "NLD", payloadTeu := 14200,
    revenue := 2130000, cost := 1850000, profit := 280000, fuelEfficiency := mkRat 42 100 }

/-- C6 counterexample: the Shipment dashboard computes `totalProfit` as
`totalRevenue - totalCost`, so on a subset holding one record with
revenue 10, cost 3 and profit field 999 the reported total profit is 7,
not the sum 999 of the profit fields. -/
theorem c6_counterexample :
    (statsShipment [oddShipment]).totalProfit = 7 ∧
    ([oddShipment].map Shipment.profit).sum = 999 ∧
    (statsShipment [oddShipment]).totalProfit ≠ ([oddShipment].map Shipment.profit).sum := by
  refine ⟨?_, by norm_num [oddShipment], ?_⟩ <;> norm_num [statsShipment, oddShipment]

/-- Sums of pointwise-consistent shipments: if every record satisfies
`profit = revenue - cost` then the revenue and cost sums differ by the
profit sum. -/
theorem shipment_sum_sub (l : List Shipment)
    (h : ∀ s ∈ l, s.profit = s.revenue - s.cost) :
    (l.map Shipment.revenue).sum - (l.map Shipment.cost).sum
      = (l.map Shipment.profit).sum := by
  induction l with
  | nil => simp
  | cons a t ih =>
      have ha := h a (by simp)
      have ht := ih (fun s hs => h s (by simp [hs]))
      simp only [List.map_cons, List.sum_cons]
      rw [ha, ← ht]
      ring

/-- C6 amended: the Inquiry dashboard's stats are the sums of the value,
cost and profit fields over the subset (with `|| 0` defaults); the
Shipment dashboard instead sets `totalProfit = totalRevenue - totalCost`,
which coincides with the sum of the per-record profit fields exactly on
subsets where every record's profit field equals revenue minus cost. -/
theorem c6_stats_sums :
    (∀ l : List Inquiry,
        (statsInquiry l).totalQtnValue = (l.map Inquiry.qtnValue).sum ∧
        (statsInquiry l).totalCost = (l.map (fun s => jsOrZero s.qtnCost)).sum ∧
        (statsInquiry l).totalProfit = (l.map Inquiry.qtnProfit).sum) ∧
    (∀ l : List Shipment,
        (statsShipment l).totalProfit
          = (statsShipment l).totalRevenue - (statsShipment l).totalCost) ∧
    (∀ l : List Shipment, (∀ s ∈ l, s.profit = s.revenue - s.cost) →
        (statsShipment l).totalProfit = (l.map Shipment.profit).sum) := by
  refine ⟨?_, ?_, ?_⟩
  · intro l
    exact ⟨foldl_add_eq_sum _ _, foldl_add_eq_sum _ _, foldl_add_eq_sum _ _⟩
  · intro l
    simp [statsShipment]
  · intro l h
    simp only [statsShipment, foldl_add_eq_sum]
    exact shipment_sum_sub l h

/-- Witness for `c6_stats_sums` on the singleton subset holding the
dataService record SHP-0041. -/
theorem c6_stats_sums_witness :
    shp0041.profit = shp0041.revenue - shp0041.cost ∧
    (statsShipment [shp0041]).totalProfit = ([shp0041].map Shipment.profit).sum :=
  ⟨by norm_num [shp0041], c6_stats_sums.2.2 [shp0041] (by
    intro s hs
    simp at hs
    subst hs
    norm_num [shp0041])⟩

/-! ## C7 — row-level retention filter -/

/-- A row whose every cell is whitespace. -/
def whitespaceRow : Row :=
  [("FOLDER NUMBER", " "), ("VESSEL NAME", "  "), ("PDA / QTN VALUE", " ")]

/-- A row with a positive primary value and an empty vessel name. -/
def valueOnlyRow : Row :=
  [("FOLDER NUMBER", ""), ("VESSEL NAME", ""), ("PDA / QTN VALUE", "500")]

/-- The header list used by the two concrete C7 scenarios. -/
def c7Fields : List String := ["FOLDER NUMBER", "VESSEL NAME", "PDA / QTN VALUE"]

/-- C7: a mapped record is retained iff it has a non-empty vessel name, a
positive primary value, or a positive identifier number; a row of
whitespace-only cells is dropped (no error, just absent from the output),
and a row with a positive value but empty name is kept. -/
theorem c7_row_filter_spec :
    (∀ i : Inquiry,
        hasSignal i = true ↔ (i.vesselName ≠ "" ∨ 0 < i.qtnValue ∨ 0 < i.rowNum)) ∧
    (∀ (fields : List String) (rows : List Row) (i : Inquiry),
        i ∈ fetchSheetRecords fields rows ↔
          i ∈ rows.map (mapRowInquiry (fields.headD "FOLDER NUMBER")) ∧
            hasSignal i = true) ∧
    fetchSheetRecords c7Fields [whitespaceRow] = [] ∧
    fetchSheetRecords c7Fields [valueOnlyRow]
      = [mapRowInquiry "FOLDER NUMBER" valueOnlyRow] ∧
    (mapRowInquiry "FOLDER NUMBER" valueOnlyRow).vesselName = "" ∧
    0 < (mapRowInquiry "FOLDER NUMBER" valueOnlyRow).qtnValue := by
  refine ⟨?_, ?_, by decide, by decide, by decide, by decide⟩
  · intro i
    simp [hasSignal, Bool.or_eq_true, ne_eq, or_assoc]
  · intro fields rows i
    simp [fetchSheetRecords, List.mem_filter]

/-! ## C8 — no observable transition after teardown -/

/-- After unmount (both timers cleared, `mounted := false`), every event
other than a re-mount leaves the state unchanged. -/
theorem dashStep_fixed_of_unmounted (s : DashState) (e : DashEvent)
    (hm : s.mounted = false) (hr : s.refreshTimer = false)
    (hc : s.clockTimer = false)
    (he : e ≠ DashEvent.mount) : dashStep s e = s := by
  cases e with
  | mount => exact absurd rfl he
  | refreshTick => rfl
  | clockTick => simp [dashStep, hc]
  | fetchResolve o => simp [dashStep, hm]
  | unmount =>
      cases s
      simp_all [dashStep]

/-- C8: stopping the scheduler clears both the refresh timer and the
1-second clock timer, and afterwards no sequence of non-mount events —
including the late resolution of a fetch that was in flight at teardown —
changes the state, hence the observable `(records, loading, clock)` is
unchanged. -/
theorem c8_no_update_after_teardown (s : DashState) (evs : List DashEvent)
    (h : ∀ e ∈ evs, e ≠ DashEvent.mount) :
    (dashStep s .unmount).refreshTimer = false ∧
    (dashStep s .unmount).clockTimer = false ∧
    evs.foldl dashStep (dashStep s .unmount) = dashStep s .unmount ∧
    dashObservable (evs.foldl dashStep (dashStep s .unmount))
      = dashObservable (dashStep s .unmount) := by
  have hfix : ∀ (evs' : List DashEvent), (∀ e ∈ evs', e ≠ DashEvent.mount) →
      evs'.foldl dashStep (dashStep s .unmount) = dashStep s .unmount := by
    intro evs' h'
    induction evs' with
    | nil => rfl
    | cons e t ih =>
        have he : e ≠ DashEvent.mount := h' e (by simp)
        have hstep : dashStep (dashStep s .unmount) e = dashStep s .unmount :=
          dashStep_fixed_of_unmounted _ _ rfl rfl rfl he
        simpa [hstep] using ih (fun e2 h2 => h' e2 (by simp [h2]))
    
  refine ⟨rfl, rfl, hfix evs h, ?_⟩
  rw [hfix evs h]

/-- A mounted scheduler state holding five records, used by the C8
witness. -/
def mountedState : DashState :=
  { mounted := true, refreshTimer := true, clockTimer := true,
    inquiries := fiveRecords, loading := false, clockTicks := 7 }

/-- The post-teardown events of the C8 witness: a late fetch resolution, a
clock tick and a refresh tick. -/
def lateEvents : List DashEvent :=
  [DashEvent.fetchResolve (.ok ["X"] [[("X", "1")]]), DashEvent.clockTick,
    DashEvent.refreshTick]

/-- Witness for `c8_no_update_after_teardown`: the mounted state torn
down, then hit by the three late events. -/
theorem c8_no_update_after_teardown_witness :
    lateEvents.foldl dashStep (dashStep mountedState .unmount)
      = dashStep mountedState .unmount :=
  (c8_no_update_after_teardown mountedState lateEvents (by decide)).2.2.1

/-! ## C9 — percentages and the empty record set -/

/-- C9: percentage-of-total is `Math.round(count / total * 100)` guarded to
0 when the total is 0; the stats of the empty record set are all-zero, its
total is 0, and hence every percentage computed from it is 0%.  The
rounding examples pin down `Math.round` (33.3→33, 66.6→67, half up). -/
theorem c9_empty_stats_spec :
    statsInquiry [] =
      { totalQtnValue := 0, totalCost := 0, totalProfit := 0,
        totalQtnMargin := 0, totalInquiries := 0, confirmedOrders := 0 } ∧
    (∀ count : ℚ, categoryPercentage count ((statsInquiry []).totalInquiries : ℚ) = 0) ∧
    categoryPercentage 1 4 = 25 ∧
    categoryPercentage 1 3 = 33 ∧
    categoryPercentage 2 3 = 67 ∧
    categoryPercentage 1 2 = 50 := by
  refine ⟨by simp [statsInquiry], ?_, ?_, ?_, ?_, ?_⟩
  · intro count
    simp [statsInquiry, categoryPercentage]
  all_goals norm_num [categoryPercentage, jsRound]

/-! ## C10 — login gate -/

/-- C10: submitting the login form invokes `onLogin` iff the entered code
is string-equal to the configured passcode (environment override, default
`'1234'`); on any other code the error flag is set, loading is reset,
`onLogin` is not called and the admission flag keeps its previous value. -/
theorem c10_login_gate (env : Option String) (st : LoginState) (isAuth : Bool) :
    accessCode none = "1234" ∧
    ((handleSubmit env st).2 = true ↔ st.code = accessCode env) ∧
    (st.code ≠ accessCode env →
      (handleSubmit env st).1.error = true ∧
      (handleSubmit env st).1.isLoading = false ∧
      (handleSubmit env st).2 = false ∧
      submitAdmission env st isAuth = isAuth) ∧
    (st.code = accessCode env →
      (handleSubmit env st).2 = true ∧ submitAdmission env st isAuth = true) := by
  refine ⟨by decide, ?_, ?_, ?_⟩ <;>
    by_cases h : st.code = accessCode env <;>
      simp [handleSubmit, submitAdmission, h]

/-- Witness for `c10_login_gate` at the default configuration and a wrong
code. -/
theorem c10_login_gate_witness :
    "9999" ≠ accessCode none ∧
    (handleSubmit none { code := "9999", error := false, isLoading := false }).1.error = true ∧
    (handleSubmit none { code := "9999", error := false, isLoading := false }).2 = false ∧
    submitAdmission none { code := "9999", error := false, isLoading := false } false = false := by
  have h := (c10_login_gate none { code := "9999", error := false, isLoading := false } false).2.2.1
    (by decide)
  exact ⟨by decide, h.1, h.2.2.1, h.2.2.2⟩
